import Mathlib

/-
Verification of the `OHOS::Ashmem` shared-memory handle
(src/base/include/ashmem.h of commonlibrary_c_utils).

The repository ships the class declaration (ashmem.h); the method bodies
live in a translation unit that is not part of the sources here, so the
operations are modelled from the specification (spec.md, section 4.1
"Shared-Memory Handle") and from the contracts documented in the header
itself.  Machine integers (`int`, `int32_t`) are modelled as unbounded
`Int`; the bounds check of the spec is stated with exact integer
arithmetic, which is precisely the "overflow-safe" comparison the spec
demands.  The two external leaves are made explicit:
  * the Mapping Primitive's outcome is an `Option Nat` argument
    (`some addr` = mmap returned an address, `none` = mmap failed);
  * the Region Provider's kernel-side protection flag is a `Kernel`
    state threaded through `SetProtection`/`GetProtection`;
  * the bytes of the region are a function `Int → Nat` threaded through
    `WriteToAshmem`/`ReadFromAshmem`; a returned read view is modelled
    as the list of bytes it designates.
-/

/-- Linux protection bit for read access (PROT_READ). -/
def PROT_READ : Nat := 1

/-- Linux protection bit for write access (PROT_WRITE). -/
def PROT_WRITE : Nat := 2

/-- Linux protection value meaning no access (PROT_NONE). -/
def PROT_NONE : Nat := 0

/-- State of an `OHOS::Ashmem` handle, mirroring the private fields at
src/base/include/ashmem.h lines 207-212: the file descriptor, the region
size, the protection flag of the user-space mapping, and the start
address of the mapping (`none` models the null pointer of an unmapped
handle). -/
structure Ashmem where
  memoryFd_ : Int
  memorySize_ : Int
  flag_ : Nat
  startAddr_ : Option Nat
deriving DecidableEq

/-- Modelled from the spec: the kernel-side state of the region as seen
through the Region Provider (the body of `AshmemSetProt` / the kernel
driver is not in the sources); only the kernel-level protection flag of
the region is relevant to the claims. -/
structure Kernel where
  prot : Nat
deriving DecidableEq

/-- Modelled from the spec: the constructor `Ashmem::Ashmem(int fd, int32_t size)`
(body not in the sources) wraps an already-obtained descriptor and size
into a handle in the unmapped state (`baseAddress=null`,
`mappingProtection=none`). -/
def construct (fd size : Int) : Ashmem :=
  { memoryFd_ := fd, memorySize_ := size, flag_ := PROT_NONE, startAddr_ := none }

/-- Modelled from the spec: `Ashmem::UnmapAshmem` (body not in the
sources).  No-op if already unmapped; otherwise the Mapping Primitive's
unmap is invoked and, regardless of its reported outcome, the handle
resets `baseAddress=null` and `mappingProtection=none` (spec section 4.1
"unmap()").  The primitive's outcome does not influence the state, so it
is not a parameter. -/
def UnmapAshmem (a : Ashmem) : Ashmem :=
  match a.startAddr_ with
  | none => a
  | some _ => { a with startAddr_ := none, flag_ := PROT_NONE }

/-- Modelled from the spec: `Ashmem::MapAshmem(int mapType)` (body not in
the sources).  If already mapped, the existing mapping is unmapped first
(spec section 4.1 "map()": re-mapping replaces, never stacks).  The
Mapping Primitive's result is the `res` argument; on success the address
and protection are recorded, on failure the handle is left unmapped and
`false` is returned, with no retry. -/
def MapAshmem (a : Ashmem) (res : Option Nat) (mapType : Nat) : Ashmem × Bool :=
  match res with
  | some addr => ({ UnmapAshmem a with startAddr_ := some addr, flag_ := mapType }, true)
  | none => (UnmapAshmem a, false)

/-- Modelled from the spec: `Ashmem::MapReadAndWriteAshmem`, documented in
the header as calling `MapAshmem(PROT_READ | PROT_WRITE)`. -/
def MapReadAndWriteAshmem (a : Ashmem) (res : Option Nat) : Ashmem × Bool :=
  MapAshmem a res (PROT_READ ||| PROT_WRITE)

/-- Modelled from the spec: `Ashmem::MapReadOnlyAshmem`, documented in the
header as calling `MapAshmem(PROT_READ)`. -/
def MapReadOnlyAshmem (a : Ashmem) (res : Option Nat) : Ashmem × Bool :=
  MapAshmem a res PROT_READ

/-- Modelled from the spec: `Ashmem::CloseAshmem` (body not in the
sources).  The region is unmapped first if still mapped, then the
descriptor is released and all inner parameters are cleared (header doc
line 91); the descriptor becomes the closed sentinel `0` documented at
header lines 199-200. -/
def CloseAshmem (a : Ashmem) : Ashmem :=
  { UnmapAshmem a with memoryFd_ := 0, memorySize_ := 0 }

/-- Modelled from the spec: `Ashmem::SetProtection` (body not in the
sources) asks the Region Provider to change the kernel-side protection
flag; it returns the provider's status (`ok` models the provider's
verdict) and does not affect the local mapping's protection. -/
def SetProtection (a : Ashmem) (k : Kernel) (ok : Bool) (protectionType : Nat) :
    Ashmem × Kernel × Bool :=
  if ok then (a, { prot := protectionType }, true) else (a, k, false)

/-- Modelled from the spec: `Ashmem::GetProtection` (body not in the
sources) returns the kernel-level protection flag as currently reported
by the Region Provider (queried, not cached). -/
def GetProtection (k : Kernel) : Nat := k.prot

/-- `Ashmem::GetAshmemSize` returns the cached size (spec section 4.1
"getSize()"). -/
def GetAshmemSize (a : Ashmem) : Int := a.memorySize_

/-- `Ashmem::GetAshmemFd`, defined inline in the header (lines 202-205):
returns the stored descriptor; being `const`, it cannot mutate the
handle, which the model reflects by making it a pure projection. -/
def GetAshmemFd (a : Ashmem) : Int := a.memoryFd_

/-- Modelled from the spec: `Ashmem::CheckValid(int32_t size, int32_t offset, int cmd)`
(declared at header line 212, body not in the sources).  Validates, per
spec section 3 and 4.1: handle mapped, `size ≥ 0`, `offset ≥ 0`,
`offset + size ≤ memorySize` with exact (overflow-safe) arithmetic, and
the requested access `cmd` granted both by the kernel-side protection of
the region and by the protection of the local mapping (header notes at
lines 166-167 and 181-182). -/
def CheckValid (a : Ashmem) (kprot : Nat) (size offset : Int) (cmd : Nat) : Bool :=
  a.startAddr_.isSome
    && decide (0 ≤ size) && decide (0 ≤ offset)
    && decide (offset + size ≤ a.memorySize_)
    && (kprot &&& cmd != 0) && (a.flag_ &&& cmd != 0)

/-- Pointwise update of the region's bytes: bytes `offset ≤ i < offset + size`
take the corresponding byte of `data`, all others are untouched. -/
def writeMem (mem : Int → Nat) (data : Nat → Nat) (size offset : Int) : Int → Nat :=
  fun i => if offset ≤ i ∧ i < offset + size then data (i - offset).toNat else mem i

/-- Modelled from the spec: `Ashmem::WriteToAshmem(const void *data, int32_t size, int32_t offset)`
(body not in the sources).  After `CheckValid` with write access, copies
exactly `size` bytes of `data` to `baseAddress + offset` and returns
`true`; on any validation failure returns `false` without touching the
region's memory.  The handle's own fields are never mutated. -/
def WriteToAshmem (a : Ashmem) (k : Kernel) (mem : Int → Nat) (data : Nat → Nat)
    (size offset : Int) : (Int → Nat) × Bool :=
  if CheckValid a k.prot size offset PROT_WRITE then
    (writeMem mem data size offset, true)
  else (mem, false)

/-- Modelled from the spec: `Ashmem::ReadFromAshmem(int32_t size, int32_t offset)`
(body not in the sources).  After `CheckValid` with read access, returns
the view `baseAddress + offset` of length `size`, modelled as the list of
the designated bytes; on any validation failure returns `none` (the null
pointer). -/
def ReadFromAshmem (a : Ashmem) (k : Kernel) (mem : Int → Nat) (size offset : Int) :
    Option (List Nat) :=
  if CheckValid a k.prot size offset PROT_READ then
    some ((List.range size.toNat).map fun (i : Nat) => mem (offset + (i : Int)))
  else none

/-- The mapping invariant of spec section 3: the handle records a base
address exactly when it records a non-trivial mapping protection. -/
def inv (a : Ashmem) : Prop :=
  a.startAddr_.isSome = (a.flag_ != PROT_NONE)

instance (a : Ashmem) : Decidable (inv a) := by
  unfold inv
  infer_instance

/- Concrete states used by the witnesses. -/

/-- A handle of size 10 mapped read-write at address 4096 with fd 7. -/
def wA : Ashmem :=
  { memoryFd_ := 7, memorySize_ := 10, flag_ := 3, startAddr_ := some 4096 }

/-- A kernel region state granting read and write. -/
def wK : Kernel := { prot := 3 }

/-- An unmapped handle of size 10. -/
def wU : Ashmem :=
  { memoryFd_ := 7, memorySize_ := 10, flag_ := 0, startAddr_ := none }

/-- A zeroed region memory. -/
def wMem : Int → Nat := fun _ => 0

/-- A concrete data source for writes. -/
def wData : Nat → Nat := fun i => i + 1

/- Helper lemmas. -/

/-- Decomposition of a successful `CheckValid`. -/
theorem checkValid_true_iff (a : Ashmem) (kprot : Nat) (size offset : Int) (cmd : Nat) :
    CheckValid a kprot size offset cmd = true ↔
      a.startAddr_.isSome = true ∧ 0 ≤ size ∧ 0 ≤ offset ∧
        offset + size ≤ a.memorySize_ ∧ kprot &&& cmd ≠ 0 ∧ a.flag_ &&& cmd ≠ 0 := by
  simp [CheckValid, Bool.and_eq_true, and_assoc]

/-- An unmapped handle fails `CheckValid`. -/
theorem checkValid_of_unmapped (a : Ashmem) (kprot : Nat) (size offset : Int) (cmd : Nat)
    (h : a.startAddr_ = none) : CheckValid a kprot size offset cmd = false := by
  simp [CheckValid, h]

/- Claim theorems. -/

/-- C1: a call to `WriteToAshmem(data, size, offset)` or
`ReadFromAshmem(size, offset)` can succeed only if `size ≥ 0`,
`offset ≥ 0` and `offset + size ≤ memorySize`, the comparison being
performed with exact arithmetic; in particular, when the region size fits
in a signed 32-bit integer, any accepted combination has an `offset + size`
that also fits, so no combination whose sum would overflow is accepted. -/
theorem write_read_success_bounds (a : Ashmem) (k : Kernel) (mem : Int → Nat)
    (data : Nat → Nat) (sz off : Int)
    (h : (WriteToAshmem a k mem data sz off).2 = true ∨
         (ReadFromAshmem a k mem sz off).isSome = true) :
    0 ≤ sz ∧ 0 ≤ off ∧ off + sz ≤ a.memorySize_ ∧
      (a.memorySize_ < 2 ^ 31 → off + sz < 2 ^ 31) := by
  have hcv : CheckValid a k.prot sz off PROT_WRITE = true ∨
      CheckValid a k.prot sz off PROT_READ = true := by
    rcases h with h | h
    · left
      by_cases hc : CheckValid a k.prot sz off PROT_WRITE = true
      · exact hc
      · simp [WriteToAshmem, hc] at h
    · right
      by_cases hc : CheckValid a k.prot sz off PROT_READ = true
      · exact hc
      · simp [ReadFromAshmem, hc] at h
  rcases hcv with hc | hc <;>
    · obtain ⟨-, h1, h2, h3, -, -⟩ := (checkValid_true_iff a k.prot sz off _).1 hc
      exact ⟨h1, h2, h3, fun hm => lt_of_le_of_lt h3 hm⟩

/-- C1 witness: a successful write on the concrete read-write handle. -/
theorem write_read_success_bounds_witness :
    (0 : Int) ≤ 4 ∧ (0 : Int) ≤ 2 ∧ (2 : Int) + 4 ≤ wA.memorySize_ ∧
      (wA.memorySize_ < 2 ^ 31 → (2 : Int) + 4 < 2 ^ 31) :=
  write_read_success_bounds wA wK wMem wData 4 2 (Or.inl (by decide))

/-- C2: on any validation failure `WriteToAshmem` returns `false` with the
region's memory untouched and `ReadFromAshmem` returns the null pointer;
moreover a non-null result of `ReadFromAshmem` is always a view of exactly
`size` bytes lying inside the region's bounds, never dangling or
out-of-bounds. -/
theorem fail_no_touch_no_dangle (a : Ashmem) (k : Kernel) (mem : Int → Nat)
    (data : Nat → Nat) (sz off : Int) :
    (CheckValid a k.prot sz off PROT_WRITE = false →
        WriteToAshmem a k mem data sz off = (mem, false)) ∧
    (CheckValid a k.prot sz off PROT_READ = false →
        ReadFromAshmem a k mem sz off = none) ∧
    (∀ l, ReadFromAshmem a k mem sz off = some l →
        a.startAddr_.isSome = true ∧ 0 ≤ off ∧ off + sz ≤ a.memorySize_ ∧
          l.length = sz.toNat) := by
  refine ⟨fun hw => by simp [WriteToAshmem, hw], fun hr => by simp [ReadFromAshmem, hr],
    fun l hl => ?_⟩
  by_cases hc : CheckValid a k.prot sz off PROT_READ = true
  · obtain ⟨h0, -, h2, h3, -, -⟩ := (checkValid_true_iff a k.prot sz off _).1 hc
    refine ⟨h0, h2, h3, ?_⟩
    unfold ReadFromAshmem at hl
    rw [if_pos hc] at hl
    injection hl with hl
    rw [← hl, List.length_map, List.length_range]
  · simp [ReadFromAshmem, hc] at hl

/-- C2 witness: an out-of-bounds write on the concrete handle leaves the
memory untouched and returns `false`. -/
theorem fail_no_touch_no_dangle_witness :
    WriteToAshmem wA wK wMem wData 4 8 = (wMem, false) :=
  (fail_no_touch_no_dangle wA wK wMem wData 4 8).1 (by decide)

/-- C3: on a handle that is not currently mapped (`baseAddress` null),
`WriteToAshmem` returns `false` without touching memory and
`ReadFromAshmem` returns the null pointer, for every offset and size. -/
theorem unmapped_always_fails (a : Ashmem) (k : Kernel) (mem : Int → Nat)
    (data : Nat → Nat) (sz off : Int) (h : a.startAddr_ = none) :
    WriteToAshmem a k mem data sz off = (mem, false) ∧
      ReadFromAshmem a k mem sz off = none := by
  constructor
  · simp [WriteToAshmem, checkValid_of_unmapped a k.prot sz off PROT_WRITE h]
  · simp [ReadFromAshmem, checkValid_of_unmapped a k.prot sz off PROT_READ h]

/-- C3 witness: a fully in-bounds access on the concrete unmapped handle
still fails. -/
theorem unmapped_always_fails_witness :
    WriteToAshmem wU wK wMem wData 4 2 = (wMem, false) ∧
      ReadFromAshmem wU wK wMem 4 2 = none :=
  unmapped_always_fails wU wK wMem wData 4 2 (by decide)

/-- C4: `CloseAshmem` is idempotent: after any first call the descriptor
is the closed sentinel `0` and the region is unmapped, and a second call
leaves the state exactly as the first call left it (so it produces the
sentinel again and no further change). -/
theorem close_idempotent (a : Ashmem) :
    (CloseAshmem a).memoryFd_ = 0 ∧ (CloseAshmem a).startAddr_ = none ∧
      CloseAshmem (CloseAshmem a) = CloseAshmem a := by
  obtain ⟨fd, sz, fl, ad⟩ := a
  cases ad <;> simp [CloseAshmem, UnmapAshmem]

/-- Unmapping an already-unmapped handle is the identity. -/
theorem unmap_of_unmapped (a : Ashmem) (h : a.startAddr_ = none) : UnmapAshmem a = a := by
  unfold UnmapAshmem
  rw [h]

/-- Under the mapping invariant, an unmapped handle has protection `none`. -/
theorem flag_none_of_unmapped (a : Ashmem) (hinv : inv a) (h : a.startAddr_ = none) :
    a.flag_ = PROT_NONE := by
  unfold inv at hinv
  rw [h] at hinv
  simpa [PROT_NONE] using hinv.symm

/-- After `UnmapAshmem` the handle is unmapped with protection `none` (on
invariant-respecting states). -/
theorem unmap_clears (a : Ashmem) (hinv : inv a) :
    (UnmapAshmem a).startAddr_ = none ∧ (UnmapAshmem a).flag_ = PROT_NONE := by
  unfold UnmapAshmem
  cases h : a.startAddr_ with
  | none => exact ⟨h, flag_none_of_unmapped a hinv h⟩
  | some addr => exact ⟨rfl, rfl⟩

/-- C5: after every call to `UnmapAshmem` on an invariant-respecting
handle the handle is in the unmapped state (`baseAddress` null,
`mappingProtection` none) — the unmap primitive's outcome never enters the
state, so this holds regardless of whether it reports failure;
`UnmapAshmem` on an already-unmapped handle is a no-op; and `MapAshmem`
immediately followed by `UnmapAshmem` returns the handle to
`baseAddress=null`, `mappingProtection=none` for every map type and every
primitive outcome. -/
theorem unmap_resets_state (a : Ashmem) (res : Option Nat) (mapType : Nat)
    (hinv : inv a) :
    (UnmapAshmem a).startAddr_ = none ∧ (UnmapAshmem a).flag_ = PROT_NONE ∧
      (a.startAddr_ = none → UnmapAshmem a = a) ∧
      (UnmapAshmem (MapAshmem a res mapType).1).startAddr_ = none ∧
      (UnmapAshmem (MapAshmem a res mapType).1).flag_ = PROT_NONE := by
  obtain ⟨h1, h2⟩ := unmap_clears a hinv
  have hmm := unmap_of_unmapped (UnmapAshmem a) h1
  refine ⟨h1, h2, fun h => unmap_of_unmapped a h, ?_, ?_⟩
  · cases res with
    | some addr => simp [MapAshmem, UnmapAshmem]
    | none => simpa [MapAshmem, hmm] using h1
  · cases res with
    | some addr => simp [MapAshmem, UnmapAshmem]
    | none => simpa [MapAshmem, hmm] using h2

/-- C5 witness: unmapping the concrete mapped handle, and map-then-unmap
on it, both land in the unmapped state. -/
theorem unmap_resets_state_witness :
    (UnmapAshmem wA).startAddr_ = none ∧ (UnmapAshmem wA).flag_ = PROT_NONE ∧
      (wA.startAddr_ = none → UnmapAshmem wA = wA) ∧
      (UnmapAshmem (MapAshmem wA (some 8192) 3).1).startAddr_ = none ∧
      (UnmapAshmem (MapAshmem wA (some 8192) 3).1).flag_ = PROT_NONE :=
  unmap_resets_state wA (some 8192) 3 (by decide)

/-- C6: the invariant `baseAddress ≠ null ⇔ mappingProtection ≠ none`
holds in the constructed (unmapped) state and is preserved by every
state-changing operation of the handle on both success and failure paths:
`MapAshmem` (under the spec's precondition that the requested protection
is non-empty), `MapReadAndWriteAshmem`, `MapReadOnlyAshmem`,
`UnmapAshmem`, `SetProtection` and `CloseAshmem`.  `WriteToAshmem` and
`ReadFromAshmem` leave the handle's fields unchanged by definition, so
they preserve the invariant trivially. -/
theorem inv_preserved (a : Ashmem) (fd size : Int) (res : Option Nat) (mapType : Nat)
    (k : Kernel) (ok : Bool) (p : Nat) (hinv : inv a) (hmt : mapType ≠ PROT_NONE) :
    inv (construct fd size) ∧
      inv (MapAshmem a res mapType).1 ∧
      inv (MapReadAndWriteAshmem a res).1 ∧
      inv (MapReadOnlyAshmem a res).1 ∧
      inv (UnmapAshmem a) ∧
      inv (SetProtection a k ok p).1 ∧
      inv (CloseAshmem a) := by
  obtain ⟨h1, h2⟩ := unmap_clears a hinv
  have hmap : ∀ mt : Nat, mt ≠ PROT_NONE → inv (MapAshmem a res mt).1 := by
    intro mt hmt'
    cases res with
    | some addr => simp [MapAshmem, inv, bne_iff_ne, hmt']
    | none => simp [MapAshmem, inv, h1, h2, PROT_NONE]
  refine ⟨by simp [construct, inv, PROT_NONE], hmap mapType hmt, ?_, ?_, ?_, ?_, ?_⟩
  · exact hmap _ (by simp [PROT_READ, PROT_WRITE, PROT_NONE])
  · exact hmap _ (by simp [PROT_READ, PROT_NONE])
  · simp [inv, h1, h2, PROT_NONE]
  · cases ok <;> simpa [SetProtection] using hinv
  · simp [CloseAshmem, inv, h1, h2, PROT_NONE]

/-- C6 witness: invariant preservation instantiated on the concrete
mapped handle with a read-write re-map request. -/
theorem inv_preserved_witness :
    inv (construct 7 10) ∧
      inv (MapAshmem wA (some 8192) 3).1 ∧
      inv (MapReadAndWriteAshmem wA (some 8192)).1 ∧
      inv (MapReadOnlyAshmem wA (some 8192)).1 ∧
      inv (UnmapAshmem wA) ∧
      inv (SetProtection wA wK true 1).1 ∧
      inv (CloseAshmem wA) :=
  inv_preserved wA 7 10 (some 8192) 3 wK true 1 (by decide) (by decide)

/-- C7: when the Mapping Primitive rejects the request, `MapAshmem`
returns `false` and leaves the handle unmapped with protection `none`
(the primitive is consulted exactly once, so no retry occurs); when the
handle was already mapped, the result of a successful `MapAshmem` carries
exactly the new address and protection — the old mapping is removed
first, so mappings replace and never stack. -/
theorem map_failure_and_replace (a : Ashmem) (mapType : Nat) (hinv : inv a) :
    ((MapAshmem a none mapType).1.startAddr_ = none ∧
        (MapAshmem a none mapType).1.flag_ = PROT_NONE ∧
        (MapAshmem a none mapType).2 = false) ∧
      ∀ addr : Nat,
        (MapAshmem a (some addr) mapType).1.startAddr_ = some addr ∧
          (MapAshmem a (some addr) mapType).1.flag_ = mapType ∧
          (MapAshmem a (some addr) mapType).2 = true := by
  obtain ⟨h1, h2⟩ := unmap_clears a hinv
  exact ⟨⟨h1, h2, rfl⟩, fun addr => ⟨rfl, rfl, rfl⟩⟩

/-- C7 witness: a rejected and an accepted re-map of the concrete mapped
handle. -/
theorem map_failure_and_replace_witness :
    ((MapAshmem wA none 1).1.startAddr_ = none ∧
        (MapAshmem wA none 1).1.flag_ = PROT_NONE ∧
        (MapAshmem wA none 1).2 = false) ∧
      ∀ addr : Nat,
        (MapAshmem wA (some addr) 1).1.startAddr_ = some addr ∧
          (MapAshmem wA (some addr) 1).1.flag_ = 1 ∧
          (MapAshmem wA (some addr) 1).2 = true :=
  map_failure_and_replace wA 1 (by decide)

/-- C8: on a handle whose mapping and kernel protection both grant read
access, a successful `WriteToAshmem(data, size, offset)` followed by
`ReadFromAshmem(size, offset)` at the same offset and size returns a view
of exactly the `size` bytes that were written — the round-trip law, for
every in-bounds offset and size (hence in particular for size 0, 1,
half the region and the full region). -/
theorem write_read_round_trip (a : Ashmem) (k : Kernel) (mem : Int → Nat)
    (data : Nat → Nat) (sz off : Int)
    (hrk : k.prot &&& PROT_READ ≠ 0) (hrf : a.flag_ &&& PROT_READ ≠ 0)
    (hw : (WriteToAshmem a k mem data sz off).2 = true) :
    ReadFromAshmem a k (WriteToAshmem a k mem data sz off).1 sz off
      = some ((List.range sz.toNat).map data) := by
  have hcw : CheckValid a k.prot sz off PROT_WRITE = true := by
    by_cases hc : CheckValid a k.prot sz off PROT_WRITE = true
    · exact hc
    · simp [WriteToAshmem, hc] at hw
  obtain ⟨h0, hs, ho, hb, -, -⟩ := (checkValid_true_iff a k.prot sz off _).1 hcw
  have hcr : CheckValid a k.prot sz off PROT_READ = true :=
    (checkValid_true_iff a k.prot sz off _).2 ⟨h0, hs, ho, hb, hrk, hrf⟩
  have hmem : (WriteToAshmem a k mem data sz off).1 = writeMem mem data sz off := by
    simp [WriteToAshmem, hcw]
  rw [hmem]
  unfold ReadFromAshmem
  rw [if_pos hcr]
  congr 1
  apply List.map_congr_left
  intro i hi
  rw [List.mem_range] at hi
  unfold writeMem
  have hcond : off ≤ off + (i : Int) ∧ off + (i : Int) < off + sz := by omega
  rw [if_pos hcond]
  congr 1
  omega

/-- C8 witness: writing 4 bytes at offset 2 of the concrete read-write
handle and reading them back yields exactly the written bytes. -/
theorem write_read_round_trip_witness :
    ReadFromAshmem wA wK (WriteToAshmem wA wK wMem wData 4 2).1 4 2
      = some ((List.range (4 : Int).toNat).map wData) :=
  write_read_round_trip wA wK wMem wData 4 2 (by decide) (by decide) (by decide)

/-- C9: `WriteToAshmem` succeeds only when write access is granted both by
the kernel-side protection flag of the region and by the protection of
the local mapping, and `ReadFromAshmem` succeeds only when read access is
granted by both; `SetProtection` never changes the local mapping's
protection, yet once the kernel-side flag lacks the access bit every
subsequent read/write fails even with the local mapping unchanged. -/
theorem permission_enforced_both_sides (a : Ashmem) (k : Kernel) (mem : Int → Nat)
    (data : Nat → Nat) (sz off : Int) (ok : Bool) (p : Nat) :
    ((WriteToAshmem a k mem data sz off).2 = true →
        a.flag_ &&& PROT_WRITE ≠ 0 ∧ k.prot &&& PROT_WRITE ≠ 0) ∧
    ((ReadFromAshmem a k mem sz off).isSome = true →
        a.flag_ &&& PROT_READ ≠ 0 ∧ k.prot &&& PROT_READ ≠ 0) ∧
    (SetProtection a k ok p).1 = a ∧
    (∀ k' : Kernel, k'.prot &&& PROT_WRITE = 0 →
        (WriteToAshmem a k' mem data sz off).2 = false) ∧
    (∀ k' : Kernel, k'.prot &&& PROT_READ = 0 →
        ReadFromAshmem a k' mem sz off = none) := by
  refine ⟨?_, ?_, by cases ok <;> rfl, ?_, ?_⟩
  · intro hw
    have hcw : CheckValid a k.prot sz off PROT_WRITE = true := by
      by_cases hc : CheckValid a k.prot sz off PROT_WRITE = true
      · exact hc
      · simp [WriteToAshmem, hc] at hw
    obtain ⟨-, -, -, -, hk, hf⟩ := (checkValid_true_iff a k.prot sz off _).1 hcw
    exact ⟨hf, hk⟩
  · intro hr
    have hcr : CheckValid a k.prot sz off PROT_READ = true := by
      by_cases hc : CheckValid a k.prot sz off PROT_READ = true
      · exact hc
      · simp [ReadFromAshmem, hc] at hr
    obtain ⟨-, -, -, -, hk, hf⟩ := (checkValid_true_iff a k.prot sz off _).1 hcr
    exact ⟨hf, hk⟩
  · intro k' hk'
    have : CheckValid a k'.prot sz off PROT_WRITE = false := by
      rw [Bool.eq_false_iff]
      intro hc
      exact ((checkValid_true_iff a k'.prot sz off _).1 hc).2.2.2.2.1 hk'
    simp [WriteToAshmem, this]
  · intro k' hk'
    have : CheckValid a k'.prot sz off PROT_READ = false := by
      rw [Bool.eq_false_iff]
      intro hc
      exact ((checkValid_true_iff a k'.prot sz off _).1 hc).2.2.2.2.1 hk'
    simp [ReadFromAshmem, this]

/-- C9 witness: on the concrete handle, a successful write implies both
write permissions, and after the kernel flag drops to read-only the same
write fails. -/
theorem permission_enforced_both_sides_witness :
    (wA.flag_ &&& PROT_WRITE ≠ 0 ∧ wK.prot &&& PROT_WRITE ≠ 0) ∧
      (WriteToAshmem wA (SetProtection wA wK true 1).2.1 wMem wData 4 2).2 = false :=
  ⟨(permission_enforced_both_sides wA wK wMem wData 4 2 true 1).1 (by decide),
    (permission_enforced_both_sides wA wK wMem wData 4 2 true 1).2.2.2.1
      (SetProtection wA wK true 1).2.1 (by decide)⟩

/-- C10: `GetAshmemFd` returns the stored descriptor unchanged — being a
pure projection (the method is `const` in the header) it cannot mutate
the handle, so repeated calls keep returning the same value — and after
`CloseAshmem` (once or twice) it returns the documented closed sentinel
`0`, a non-negative value. -/
theorem getFd_after_close (a : Ashmem) :
    GetAshmemFd a = a.memoryFd_ ∧
      GetAshmemFd (CloseAshmem a) = 0 ∧
      GetAshmemFd (CloseAshmem (CloseAshmem a)) = 0 ∧
      (0 : Int) ≤ GetAshmemFd (CloseAshmem a) := by
  exact ⟨rfl, rfl, rfl, by simp [GetAshmemFd, CloseAshmem]⟩
